import Mathlib

/-!
Verification of the porter agent-session orchestrator
(`crates/porter-core/src/agents/mod.rs` and its persistence collaborator
`crates/porter-core/src/db/queries.rs`, data model in
`crates/porter-core/src/models.rs`).

The Rust code is embedded shallowly:

* line-delimited JSON events are modelled by an inductive `Json` type with
  the `serde_json::Value` accessors the code uses (`value["k"]`, `as_str`,
  `as_bool`, `as_array`);
* `process_stream` becomes a pure fold over the list of parse results of
  the stdout lines (a line that `serde_json::from_str` rejects is `none`);
* the two-phase timeout logic (startup timeout re-armed per read while
  `first_event` holds, outer session timeout around the whole stream) is
  modelled by a timed interpreter over (delay, line) pairs, with tokio's
  "the inner future is polled before the deadline check" tie-breaking;
* the SQLite tables behind `Database` become association lists of rows, and
  each query becomes the corresponding pure list operation;
* `AgentManager` becomes a state record (db, cancellation-handle map,
  spawned tasks) whose operations mirror `start_session`, `send_message`
  and `cancel_session`; the asynchronous session tasks become explicit
  steps of a transition relation, so reachability of manager states is the
  reflexive-transitive closure of that relation.

Wall-clock timestamps (`started_at`, `completed_at`), tracing output, the
MCP config temp file contents and the broadcast channel buffer are not
modelled; no claim below depends on them.
-/

namespace Porter

/-- JSON values as produced by `serde_json::from_str` for one stdout line.
Objects are association lists of fields. -/
inductive Json where
  | null : Json
  | bool : Bool → Json
  | num : Int → Json
  | str : String → Json
  | arr : List Json → Json
  | obj : List (String × Json) → Json

/-- `value["key"]` on a `serde_json::Value`: the field of an object if
present, `Null` otherwise (also for non-objects). -/
def Json.getField : Json → String → Json
  | .obj fields, k => ((fields.find? (fun p => p.1 == k)).map Prod.snd).getD .null
  | _, _ => .null

/-- `Value::as_str`. -/
def Json.asStr : Json → Option String
  | .str s => some s
  | _ => none

/-- `Value::as_bool`. -/
def Json.asBool : Json → Option Bool
  | .bool b => some b
  | _ => none

/-- `Value::as_array`. -/
def Json.asArr : Json → Option (List Json)
  | .arr xs => some xs
  | _ => none

/-- `AgentStatus` (models.rs lines 115-122). -/
inductive AgentStatus where
  | running
  | paused
  | completed
  | failed
  deriving DecidableEq, Repr

/-- `AgentStatus::as_str` (models.rs lines 125-132). -/
def AgentStatus.asStr : AgentStatus → String
  | .running => "running"
  | .paused => "paused"
  | .completed => "completed"
  | .failed => "failed"

/-- `AgentEvent` (agents/mod.rs lines 20-31). -/
inductive AgentEvent where
  | output : (sessionId : String) → (content : String) → (contentType : String) → AgentEvent
  | statusChanged : (sessionId : String) → (status : AgentStatus) → AgentEvent
  deriving DecidableEq, Repr

/-- The mutable locals of `process_stream` (agents/mod.rs lines 387-388):
`accumulated_text` and `claude_session_id`. -/
structure DecState where
  accumulatedText : String
  claudeSessionId : Option String
  deriving DecidableEq, Repr

/-- One content block of an `assistant` event (agents/mod.rs lines 438-469):
the match on `block["type"]` inside the `for block in content` loop.
Returns the updated state and the `Output` events broadcast for this block. -/
def processContentBlock (sessionId : String) (st : DecState) (block : Json) :
    DecState × List AgentEvent :=
  match (block.getField "type").asStr with
  | some "text" =>
    match (block.getField "text").asStr with
    | some text =>
      ({ st with accumulatedText := st.accumulatedText ++ text },
        [.output sessionId text "text"])
    | none => (st, [])
  | some "thinking" =>
    match (block.getField "thinking").asStr with
    | some thinking => (st, [.output sessionId thinking "thinking"])
    | none => (st, [])
  | some "tool_use" =>
    match (block.getField "name").asStr with
    | some name => (st, [.output sessionId name "tool_use"])
    | none => (st, [])
  | _ => (st, [])

/-- The `for block in content` loop over all blocks of one `assistant`
event, threading the state and collecting broadcast events in order. -/
def processContentBlocks (sessionId : String) (st : DecState) :
    List Json → DecState × List AgentEvent
  | [] => (st, [])
  | block :: rest =>
    let (st1, evs1) := processContentBlock sessionId st block
    let (st2, evs2) := processContentBlocks sessionId st1 rest
    (st2, evs1 ++ evs2)

/-- The joined error text of an error `result` event
(agents/mod.rs lines 476-484): the string entries of `errors` joined with
a semicolon separator, or a fixed fallback when `errors` is not an array. -/
def joinedErrors (parsed : Json) : String :=
  match (parsed.getField "errors").asArr with
  | some arr => String.intercalate "; " (arr.filterMap Json.asStr)
  | none => "Unknown error"

/-- One successfully parsed line of `process_stream`: the
`match event_type` on lines 417-504 of agents/mod.rs.  `.error` is the
`anyhow::bail!` for an error `result` event; otherwise the new state and
the `Output` events broadcast while handling the line. -/
def processLine (sessionId : String) (st : DecState) (parsed : Json) :
    Except String (DecState × List AgentEvent) :=
  match ((parsed.getField "type").asStr).getD "" with
  | "system" =>
    if (parsed.getField "subtype").asStr = some "init" then
      match (parsed.getField "session_id").asStr with
      | some sid => .ok ({ st with claudeSessionId := some sid }, [])
      | none => .ok (st, [])
    else
      .ok (st, [])
  | "assistant" =>
    match ((parsed.getField "message").getField "content").asArr with
    | some content => .ok (processContentBlocks sessionId st content)
    | none => .ok (st, [])
  | "result" =>
    if (parsed.getField "is_error").asBool = some true then
      .error (joinedErrors parsed)
    else if st.accumulatedText = "" then
      match (parsed.getField "result").asStr with
      | some text =>
        .ok ({ st with accumulatedText := text },
          [.output sessionId text "text"])
      | none => .ok (st, [])
    else
      .ok (st, [])
  | _ => .ok (st, [])

/-- The read loop of `process_stream` (agents/mod.rs lines 391-505) without
the timing layer: the input is the list of per-line parse outcomes
(`none` for a line `serde_json::from_str` rejects, which the loop skips
with `continue`).  Accumulates the broadcast events alongside the state. -/
def processLines (sessionId : String) (st : DecState) (evs : List AgentEvent) :
    List (Option Json) → Except String (DecState × List AgentEvent)
  | [] => .ok (st, evs)
  | none :: rest => processLines sessionId st evs rest
  | some parsed :: rest =>
    match processLine sessionId st parsed with
    | .error e => .error e
    | .ok (st1, evs1) => processLines sessionId st1 (evs ++ evs1) rest

/-- `process_stream` (agents/mod.rs lines 376-508) as a function of the
parsed line sequence: final accumulated text, captured Claude session id
and the `Output` events broadcast, or the error bailed out with. -/
def process_stream (sessionId : String) (lines : List (Option Json)) :
    Except String (DecState × List AgentEvent) :=
  processLines sessionId { accumulatedText := "", claudeSessionId := none } [] lines

/-- One `text` content block of an `assistant` event. -/
def textBlock (t : String) : Json :=
  .obj [("type", .str "text"), ("text", .str t)]

/-- Concatenation of a list of text-block strings in source order. -/
def concatTexts : List String → String
  | [] => ""
  | t :: ts => t ++ concatTexts ts

/-- A well-formed `assistant` event whose `message.content` holds one text
block per given string. -/
def mkAssistantLine (texts : List String) : Json :=
  .obj [("type", .str "assistant"),
        ("message", .obj [("content", .arr (texts.map textBlock))])]

/-- A `system`/`init` event carrying the subprocess's own session id. -/
def mkInitLine (sid : String) : Json :=
  .obj [("type", .str "system"), ("subtype", .str "init"),
        ("session_id", .str sid)]

/-- A non-error `result` event carrying the given `result` text. -/
def mkResultLine (text : String) : Json :=
  .obj [("type", .str "result"), ("result", .str text)]

/-- An error `result` event whose `errors` field is an array of the given
strings. -/
def mkErrorResultLine (errs : List String) : Json :=
  .obj [("type", .str "result"), ("is_error", .bool true),
        ("errors", .arr (errs.map Json.str))]




/-! ## Timed model of the two-phase timeout

`process_stream` applies `tokio::time::timeout(STARTUP_TIMEOUT, next_line)`
to every read made while `first_event` is still true (agents/mod.rs lines
394-406; `first_event` turns false only once a line parses, line 414), and
`run_with_timeout` wraps the whole of `process_stream` in
`tokio::time::timeout(SESSION_TIMEOUT, ...)` (lines 531-541).  A run is
modelled by the list of stdout lines, each tagged with the seconds that
read waits, plus the wait of the final end-of-stream read.  `tokio`'s
`timeout` polls the wrapped future before checking its deadline, so on a
tie the future's own result wins; hence a timer fires only on strict
excess. -/

/-- `STARTUP_TIMEOUT` (agents/mod.rs line 14), in seconds. -/
def startupTimeoutSecs : Nat := 30

/-- `SESSION_TIMEOUT` (agents/mod.rs line 17), in seconds. -/
def sessionTimeoutSecs : Nat := 5 * 60

/-- Outcome of `run_with_timeout` (agents/mod.rs lines 525-548), without
cancellation.  `startupTimeout` is the bail on line 398 ("No output within
30 seconds — MCP server may have failed to start"), `sessionTimeout` the
bail on line 538 ("Session timed out after 300 seconds"), `remoteError`
an error propagated out of `process_stream`, and `ok` the normal result. -/
inductive RunOutcome where
  | ok : DecState → RunOutcome
  | startupTimeout : RunOutcome
  | sessionTimeout : RunOutcome
  | remoteError : String → RunOutcome
  deriving DecidableEq, Repr

/-- The timed read loop of `process_stream`: returns the absolute time at
which the loop finishes together with its result.  While `firstEvent`
holds, a read whose line has not arrived after `startupTimeoutSecs`
seconds bails out at that moment; afterwards reads wait indefinitely
(the outer session timeout is applied by `run_with_timeout`). -/
def streamRunAux (sessionId : String) : Nat → Bool → DecState →
    List (Nat × Option Json) → Nat → Nat × RunOutcome
  | t, firstEvent, st, [], eofDelay =>
    if firstEvent ∧ startupTimeoutSecs < eofDelay then
      (t + startupTimeoutSecs, .startupTimeout)
    else
      (t + eofDelay, .ok st)
  | t, firstEvent, st, (d, line) :: rest, eofDelay =>
    if firstEvent ∧ startupTimeoutSecs < d then
      (t + startupTimeoutSecs, .startupTimeout)
    else
      match line with
      | none => streamRunAux sessionId (t + d) firstEvent st rest eofDelay
      | some parsed =>
        match processLine sessionId st parsed with
        | .error e => (t + d, .remoteError e)
        | .ok (st1, _) => streamRunAux sessionId (t + d) false st1 rest eofDelay

/-- The outer `tokio::time::timeout(SESSION_TIMEOUT, ...)` applied to the
finished loop: if the loop finished after the outer deadline the
session-timeout error replaces its result (the future was killed first). -/
def applySessionTimeout (p : Nat × RunOutcome) : RunOutcome :=
  if sessionTimeoutSecs < p.1 then .sessionTimeout else p.2

/-- `run_with_timeout` (agents/mod.rs lines 525-548) without the
cancellation branch: the stream is processed under the outer
`SESSION_TIMEOUT`; if the inner loop has not finished when the outer
deadline passes, the process is killed and the session-timeout error is
reported instead of whatever the loop would have produced. -/
def run_with_timeout (sessionId : String) (lines : List (Nat × Option Json))
    (eofDelay : Nat) : RunOutcome :=
  applySessionTimeout (streamRunAux sessionId 0 true
    { accumulatedText := "", claudeSessionId := none } lines eofDelay)




/-! ## Persistence model

The `agent_sessions` and `agent_messages` tables behind `Database`
(db/queries.rs), as association lists of rows.  Timestamps are not
modelled; `id` is a caller-chosen string standing for the generated UUID. -/

/-- A row of `agent_sessions` (`AgentSession`, models.rs lines 103-113,
minus the two timestamp columns). -/
structure AgentSession where
  id : String
  prompt : String
  status : AgentStatus
  model : String
  claudeSessionId : Option String
  workingDirectory : Option String
  dangerouslySkipPermissions : Bool
  deriving DecidableEq, Repr

/-- A row of `agent_messages` (`AgentMessage`, models.rs lines 144-150,
minus id and timestamp; rows keep insertion order). -/
structure AgentMessage where
  sessionId : String
  role : String
  content : String
  deriving DecidableEq, Repr

/-- The two tables, rows in insertion order. -/
structure DbState where
  sessions : List AgentSession
  messages : List AgentMessage
  deriving DecidableEq, Repr

/-- `Database::create_agent_session` (db/queries.rs lines 136-169): builds
a new row with status `Running` and no continuation id, and inserts it. -/
def create_agent_session (db : DbState) (newId prompt model : String)
    (workingDirectory : Option String) (dangerouslySkipPermissions : Bool) :
    DbState × AgentSession :=
  let session : AgentSession :=
    { id := newId, prompt := prompt, status := .running, model := model,
      claudeSessionId := none, workingDirectory := workingDirectory,
      dangerouslySkipPermissions := dangerouslySkipPermissions }
  ({ db with sessions := db.sessions ++ [session] }, session)

/-- `Database::get_agent_session` (db/queries.rs lines 171-182). -/
def get_agent_session (db : DbState) (id : String) : Option AgentSession :=
  db.sessions.find? (fun s => s.id == id)

/-- `Database::list_agent_sessions` (db/queries.rs lines 184-201): the rows
whose `status` column equals the given string, or all rows.  (The SQL
orders by `started_at`; only membership and length matter below.) -/
def list_agent_sessions (db : DbState) (status : Option String) :
    List AgentSession :=
  match status with
  | some st => db.sessions.filter (fun s => s.status.asStr == st)
  | none => db.sessions

/-- `Database::update_agent_session_status` (db/queries.rs lines 203-225):
sets the `status` column of every row with the given id (`completed_at` is
not modelled). -/
def update_agent_session_status (db : DbState) (id : String)
    (status : AgentStatus) : DbState :=
  { db with sessions := (db.sessions.map
      (fun s => if s.id == id then { s with status := status } else s)) }

/-- `Database::add_agent_message` (db/queries.rs lines 227-252):
appends a message row. -/
def add_agent_message (db : DbState) (sessionId role content : String) :
    DbState :=
  { db with messages := (db.messages ++
      [{ sessionId := sessionId, role := role, content := content }]) }

/-- `Database::set_claude_session_id` (db/queries.rs lines 268-281):
sets the `claude_session_id` column of every row with the given id. -/
def set_claude_session_id (db : DbState) (sessionId claudeSessionId : String) :
    DbState :=
  { db with sessions := (db.sessions.map
      (fun s => if s.id == sessionId then
        { s with claudeSessionId := some claudeSessionId } else s)) }

/-- `Database::delete_agent_session` (db/queries.rs lines 254-266):
deletes the session's message rows and its session row. -/
def delete_agent_session (db : DbState) (id : String) : DbState :=
  { sessions := db.sessions.filter (fun s => !(s.id == id)),
    messages := db.messages.filter (fun m => !(m.sessionId == id)) }

/-! ## AgentManager model

`AgentManager` (agents/mod.rs lines 41-267).  The `cancel_senders` map
becomes the list of session ids holding a live `oneshot::Sender`
(`HashMap::insert` replaces, so the list is kept duplicate-free by
erase-then-cons).  A `tokio::spawn`ed session task becomes a `TaskDesc`
recorded in the state; its asynchronous effects are separate transition
steps below. -/

/-- Which closure a spawned task runs. -/
inductive TaskKind where
  | fresh
  | resume
  deriving DecidableEq, Repr

/-- One spawned, not yet finished session task. -/
structure TaskDesc where
  sessionId : String
  kind : TaskKind
  deriving DecidableEq, Repr

/-- `SessionOptions` (agents/mod.rs lines 34-38). -/
structure SessionOptions where
  workingDirectory : Option String
  dangerouslySkipPermissions : Bool
  deriving DecidableEq, Repr

/-- The manager's mutable state: the database, the `cancel_senders` map
(as the list of ids with a live handle) and the spawned tasks. -/
structure ManagerState where
  db : DbState
  cancelSenders : List String
  tasks : List TaskDesc
  deriving DecidableEq, Repr

/-- `self.cancel_senders.lock().unwrap().insert(id, tx)`: a `HashMap`
insert replaces any previous handle for the id. -/
def insertHandle (handles : List String) (id : String) : List String :=
  id :: handles.erase id

/-- The manager before any operation: empty database, no handles,
no tasks. -/
def initialState : ManagerState :=
  { db := { sessions := [], messages := [] }, cancelSenders := [], tasks := [] }

/-- `AgentManager::start_session` (agents/mod.rs lines 82-158): admission
check against the persisted count of `running` rows, session-row creation,
handle registration and task spawn.  Returns the state after the
synchronous part together with the caller-visible result; on error the
state is returned unchanged (the Rust method returns before any write). -/
def start_session (maxConcurrent : Nat) (defaultModel : String)
    (st : ManagerState) (newId prompt : String) (opts : SessionOptions) :
    ManagerState × Except String AgentSession :=
  let running := list_agent_sessions st.db (some "running")
  if maxConcurrent ≤ running.length then
    (st, .error "Maximum concurrent sessions reached")
  else
    let (db1, session) := create_agent_session st.db newId prompt defaultModel
      opts.workingDirectory opts.dangerouslySkipPermissions
    ({ db := db1,
       cancelSenders := insertHandle st.cancelSenders newId,
       tasks := st.tasks ++ [{ sessionId := newId, kind := .fresh }] },
     .ok session)

/-- `AgentManager::send_message` (agents/mod.rs lines 161-240): looks the
session up, requires a recorded `claude_session_id`, stores the user
message, marks the session `Running` again, registers a handle and spawns
the resume task.  On either error the Rust method returns before any
write, so the state is returned unchanged. -/
def send_message (st : ManagerState) (sessionId content : String) :
    ManagerState × Except String Unit :=
  match get_agent_session st.db sessionId with
  | none => (st, .error "Session not found")
  | some session =>
    match session.claudeSessionId with
    | none => (st, .error "Session has no claude_session_id")
    | some _ =>
      let db1 := add_agent_message st.db sessionId "user" content
      let db2 := update_agent_session_status db1 sessionId .running
      ({ db := db2,
         cancelSenders := insertHandle st.cancelSenders sessionId,
         tasks := st.tasks ++ [{ sessionId := sessionId, kind := .resume }] },
       .ok ())

/-- `AgentManager::cancel_session` (agents/mod.rs lines 253-261): removes
the handle for the id if present and fires it; returns whether a live
handle was found.  The Rust method always returns `Ok`, so the boolean is
total. -/
def cancel_session (st : ManagerState) (id : String) : Bool × ManagerState :=
  if st.cancelSenders.contains id then
    (true, { st with cancelSenders := st.cancelSenders.erase id })
  else
    (false, st)

/-- The tail of both spawned closures (agents/mod.rs lines 135-154 and
217-236): remove the cancellation handle, then on `Ok` set status
`Completed`; on `Err` persist the error text as an `error` message and set
status `Failed`.  (The closure also broadcasts a `StatusChanged` event;
the broadcast is transient and not part of this state.) -/
def taskFinalize (st : ManagerState) (sessionId : String)
    (result : Except String Unit) : ManagerState :=
  let senders := st.cancelSenders.erase sessionId
  match result with
  | .ok _ =>
    { st with cancelSenders := senders,
              db := update_agent_session_status st.db sessionId .completed }
  | .error e =>
    { st with cancelSenders := senders,
              db := update_agent_session_status
                (add_agent_message st.db sessionId "error" e)
                sessionId .failed }

/-! ## Session task bodies

`run_claude_session` (agents/mod.rs lines 551-611) and
`resume_claude_session` (lines 614-659).  The filesystem is the list of
existing directories; the fresh temp directory `tempfile` would create is
a parameter.  The subprocess itself is external, so the outcome of
`run_with_timeout` for the spawned child and the child's exit success are
parameters; everything the task then does to the database is computed. -/

/-- `resolve_working_dir` (agents/mod.rs lines 326-345): an explicit
directory is used verbatim if it exists and is an error otherwise; with no
explicit directory a fresh temp directory (the `freshTmp` parameter) is
created and used. -/
def resolve_working_dir (fs : List String) (explicit : Option String)
    (freshTmp : String) : Except String String :=
  match explicit with
  | some dir =>
    if fs.contains dir then .ok dir
    else .error ("Working directory does not exist: " ++ dir)
  | none => .ok freshTmp

/-- `run_claude_session` (agents/mod.rs lines 551-611): store the user
message, resolve the working directory (bailing before any subprocess is
spawned if an explicit directory is missing), run the child under
`run_with_timeout` (its outcome is the `streamResult` parameter: the
accumulated text and observed continuation id, or an error), persist the
observed continuation id if any, persist the accumulated text if
non-empty, and fail on a non-success exit status.  Returns the database
after the task body together with its `Result`. -/
def run_claude_session (fs : List String) (freshTmp : String)
    (prompt sessionId : String) (workingDirectory : Option String)
    (db : DbState) (streamResult : Except String (String × Option String))
    (exitSuccess : Bool) : DbState × Except String Unit :=
  let db1 := add_agent_message db sessionId "user" prompt
  match resolve_working_dir fs workingDirectory freshTmp with
  | .error e => (db1, .error e)
  | .ok _ =>
    match streamResult with
    | .error e => (db1, .error e)
    | .ok (text, claudeSid) =>
      let db2 := match claudeSid with
        | some csid => set_claude_session_id db1 sessionId csid
        | none => db1
      let db3 := if text = "" then db2
        else add_agent_message db2 sessionId "assistant" text
      (db3, if exitSuccess then .ok ()
        else .error "Claude process exited with non-success status")

/-- `resume_claude_session` (agents/mod.rs lines 614-659): same shape as
`run_claude_session` except that no user message is stored here (the
caller `send_message` already did) and the continuation id observed by the
stream is discarded (`let (text, _) = ...`, line 645), so
`set_claude_session_id` is never called on this path. -/
def resume_claude_session (fs : List String) (freshTmp : String)
    (claudeSessionId prompt sessionId : String)
    (workingDirectory : Option String) (db : DbState)
    (streamResult : Except String (String × Option String))
    (exitSuccess : Bool) : DbState × Except String Unit :=
  match resolve_working_dir fs workingDirectory freshTmp with
  | .error e => (db, .error e)
  | .ok _ =>
    match streamResult with
    | .error e => (db, .error e)
    | .ok (text, _) =>
      let db1 := if text = "" then db
        else add_agent_message db sessionId "assistant" text
      (db1, if exitSuccess then .ok ()
        else .error "Claude resume exited with non-success status")

/-! ## Transition relation

Each constructor is one atomic effect a caller or a spawned task can apply
to the shared state.  `CoreStep` gathers every operation except
`send_message`; `Step` adds `send_message`.  Reachability is the
reflexive-transitive closure of `Step` from `initialState`. -/

/-- Every state transition of the manager except `send_message`:
a `start_session` call (including a rejected one, which leaves the state
unchanged), a `cancel_session` call, a running task persisting the
observed continuation id (`run_claude_session` line 596) or a message
(user / assistant / error text), a task finishing with some result, and a
`delete_session` call. -/
inductive CoreStep (maxConcurrent : Nat) (defaultModel : String) :
    ManagerState → ManagerState → Prop where
  | start (st : ManagerState) (newId prompt : String) (opts : SessionOptions) :
      CoreStep maxConcurrent defaultModel st
        (start_session maxConcurrent defaultModel st newId prompt opts).1
  | cancel (st : ManagerState) (id : String) :
      CoreStep maxConcurrent defaultModel st (cancel_session st id).2
  | setCsid (st : ManagerState) (sessionId csid : String)
      (h : TaskDesc.mk sessionId .fresh ∈ st.tasks) :
      CoreStep maxConcurrent defaultModel st
        { st with db := set_claude_session_id st.db sessionId csid }
  | taskMsg (st : ManagerState) (t : TaskDesc) (role content : String)
      (h : t ∈ st.tasks) :
      CoreStep maxConcurrent defaultModel st
        { st with db := add_agent_message st.db t.sessionId role content }
  | finish (st : ManagerState) (t : TaskDesc) (result : Except String Unit)
      (h : t ∈ st.tasks) :
      CoreStep maxConcurrent defaultModel st
        (taskFinalize { st with tasks := st.tasks.erase t } t.sessionId result)
  | delete (st : ManagerState) (id : String) :
      CoreStep maxConcurrent defaultModel st
        { st with db := delete_agent_session st.db id }

/-- All state transitions: `CoreStep` plus `send_message` (including a
failed `send_message`, which leaves the state unchanged). -/
inductive Step (maxConcurrent : Nat) (defaultModel : String) :
    ManagerState → ManagerState → Prop where
  | core {st st' : ManagerState}
      (h : CoreStep maxConcurrent defaultModel st st') :
      Step maxConcurrent defaultModel st st'
  | send (st : ManagerState) (sessionId content : String) :
      Step maxConcurrent defaultModel st (send_message st sessionId content).1

/-- Reachable manager states. -/
def Reach (maxConcurrent : Nat) (defaultModel : String)
    (st : ManagerState) : Prop :=
  Relation.ReflTransGen (Step maxConcurrent defaultModel) initialState st

/-- The number of sessions whose persisted status is `running` — the count
`start_session`'s admission check consults. -/
def runningCount (db : DbState) : Nat :=
  (list_agent_sessions db (some "running")).length

/-- Total wait of a line list in the timed stream model. -/
def delaySum (lines : List (Nat × Option Json)) : Nat :=
  (lines.map Prod.fst).sum

/-! ## Concrete fixtures used by counterexamples and witnesses -/

/-- A sample persisted session row with the given status and continuation
id. -/
def sampleSession (status : AgentStatus) (csid : Option String) :
    AgentSession :=
  { id := "s1", prompt := "p", status := status, model := "m",
    claudeSessionId := csid, workingDirectory := none,
    dangerouslySkipPermissions := false }

/-- A manager holding one completed session that never reported a
continuation id. -/
def noCsidState : ManagerState :=
  { db := { sessions := [sampleSession .completed none], messages := [] },
    cancelSenders := [], tasks := [] }

/-- A database holding one completed session whose recorded continuation
id is `old-c`. -/
def oldCsidDb : DbState :=
  { sessions := [sampleSession .completed (some "old-c")], messages := [] }

/-- Default session options: no working-directory override, no permission
bypass. -/
def defaultOpts : SessionOptions :=
  { workingDirectory := none, dangerouslySkipPermissions := false }

/-- A manager with an empty database and one live cancellation handle for
`s1`. -/
def oneHandleState : ManagerState :=
  { db := { sessions := [], messages := [] }, cancelSenders := ["s1"],
    tasks := [] }

/-- With `max_concurrent = 1`: state after `start_session` admits session
`s1`. -/
def c1State1 : ManagerState :=
  (start_session 1 "m" initialState "s1" "p1" defaultOpts).1

/-- ... after `s1`'s task records the observed continuation id `c1`. -/
def c1State2 : ManagerState :=
  { c1State1 with db := set_claude_session_id c1State1.db "s1" "c1" }

/-- ... after `s1`'s task finishes successfully (`s1` becomes
`Completed`). -/
def c1State3 : ManagerState :=
  taskFinalize
    { c1State2 with tasks :=
        c1State2.tasks.erase { sessionId := "s1", kind := .fresh } }
    "s1" (.ok ())

/-- ... after `start_session` admits a second session `s2` (the persisted
running count is back to 0, so admission passes). -/
def c1State4 : ManagerState :=
  (start_session 1 "m" c1State3 "s2" "p2" defaultOpts).1

/-- ... after `send_message` reopens `s1`: both `s1` and `s2` are now
persisted as `Running` although the ceiling is 1. -/
def c1State5 : ManagerState :=
  (send_message c1State4 "s1" "again").1

/-! ## Supporting lemmas -/

theorem processContentBlock_text (sessionId : String) (st : DecState)
    (t : String) :
    processContentBlock sessionId st (textBlock t) =
      ({ st with accumulatedText := st.accumulatedText ++ t },
        [.output sessionId t "text"]) := rfl

theorem processContentBlocks_texts (sessionId : String) (ts : List String)
    (st : DecState) :
    processContentBlocks sessionId st (ts.map textBlock) =
      ({ st with accumulatedText := st.accumulatedText ++ concatTexts ts },
        ts.map (fun t => .output sessionId t "text")) := by
  induction ts generalizing st with
  | nil => simp [processContentBlocks, concatTexts, String.append_empty]
  | cons t ts ih =>
    simp [processContentBlocks, processContentBlock_text, ih, concatTexts,
      String.append_assoc]

theorem processLine_assistant (sessionId : String) (st : DecState)
    (ts : List String) :
    processLine sessionId st (mkAssistantLine ts) =
      .ok ({ st with accumulatedText := st.accumulatedText ++ concatTexts ts },
        ts.map (fun t => .output sessionId t "text")) := by
  have h : processLine sessionId st (mkAssistantLine ts) =
      .ok (processContentBlocks sessionId st (ts.map textBlock)) := rfl
  rw [h, processContentBlocks_texts]

theorem processLine_result (sessionId : String) (st : DecState) (t : String) :
    processLine sessionId st (mkResultLine t) =
      (if st.accumulatedText = "" then
        .ok ({ st with accumulatedText := t }, [.output sessionId t "text"])
      else .ok (st, [])) := rfl

theorem filterMap_asStr_map_str (errs : List String) :
    (errs.map Json.str).filterMap Json.asStr = errs := by
  induction errs with
  | nil => rfl
  | cons e es ih => simp [List.filterMap_cons, Json.asStr, ih]

theorem joinedErrors_mk (errs : List String) :
    joinedErrors (mkErrorResultLine errs) = String.intercalate "; " errs := by
  have h : joinedErrors (mkErrorResultLine errs) =
      String.intercalate "; " ((errs.map Json.str).filterMap Json.asStr) := rfl
  rw [h, filterMap_asStr_map_str]

theorem processLine_errorResult (sessionId : String) (st : DecState)
    (errs : List String) :
    processLine sessionId st (mkErrorResultLine errs) =
      .error (String.intercalate "; " errs) := by
  have h : processLine sessionId st (mkErrorResultLine errs) =
      .error (joinedErrors (mkErrorResultLine errs)) := rfl
  rw [h, joinedErrors_mk]

theorem processLines_append (sessionId : String) (xs : List (Option Json)) :
    ∀ (st : DecState) (evs : List AgentEvent) (ys : List (Option Json)),
      processLines sessionId st evs (xs ++ ys) =
        (match processLines sessionId st evs xs with
          | .ok (st1, evs1) => processLines sessionId st1 evs1 ys
          | .error e => .error e) := by
  induction xs with
  | nil => intro st evs ys; rfl
  | cons x rest ih =>
    intro st evs ys
    match x with
    | none => simpa [processLines] using ih st evs ys
    | some j =>
      cases h : processLine sessionId st j with
      | error e => simp [processLines, h]
      | ok p =>
        obtain ⟨st1, evs1⟩ := p
        simp [processLines, h, ih]

theorem find?_update_status (l : List AgentSession) (id : String)
    (status : AgentStatus) :
    (l.map (fun s => if s.id == id then { s with status := status } else s)).find?
        (fun s => s.id == id) =
      (l.find? (fun s => s.id == id)).map
        (fun s => { s with status := status }) := by
  induction l with
  | nil => rfl
  | cons a l ih =>
    cases h : a.id == id with
    | true => simp [List.find?, h]
    | false => simpa [List.find?, h] using ih

theorem get_update_status (db : DbState) (id : String) (status : AgentStatus) :
    get_agent_session (update_agent_session_status db id status) id =
      (get_agent_session db id).map (fun s => { s with status := status }) := by
  simpa [get_agent_session, update_agent_session_status] using
    find?_update_status db.sessions id status

theorem find?_set_csid (l : List AgentSession) (id csid : String) :
    (l.map (fun s => if s.id == id then
        { s with claudeSessionId := some csid } else s)).find?
        (fun s => s.id == id) =
      (l.find? (fun s => s.id == id)).map
        (fun s => { s with claudeSessionId := some csid }) := by
  induction l with
  | nil => rfl
  | cons a l ih =>
    cases h : a.id == id with
    | true => simp [List.find?, h]
    | false => simpa [List.find?, h] using ih

theorem get_set_csid (db : DbState) (id csid : String) :
    get_agent_session (set_claude_session_id db id csid) id =
      (get_agent_session db id).map
        (fun s => { s with claudeSessionId := some csid }) := by
  simpa [get_agent_session, set_claude_session_id] using
    find?_set_csid db.sessions id csid

theorem get_add_agent_message (db : DbState) (sid role content id : String) :
    get_agent_session (add_agent_message db sid role content) id =
      get_agent_session db id := rfl

/-! ## Claims about the stream decoder -/

/-- C3: each assistant text block appends its text to the accumulated
output in source order and publishes exactly one Output event per block; a
non-error result event adopts its own result text as the accumulated text
and publishes it as exactly one Output event precisely when the
accumulated text is empty on arrival, and otherwise publishes nothing and
leaves the text unchanged.  In particular, assistant blocks "Hello, " then
"world" followed by a non-error result accumulate to exactly "Hello,
world" with exactly two Output events and no result-text event, and a
lone result event "done" accumulates to "done" with exactly one Output
event. -/
theorem assistant_text_accumulated_result_adopted_iff_empty :
    (∀ (sessionId : String) (st : DecState) (ts : List String),
      processLine sessionId st (mkAssistantLine ts) =
        .ok ({ st with accumulatedText := st.accumulatedText ++ concatTexts ts },
          ts.map (fun t => AgentEvent.output sessionId t "text"))) ∧
    (∀ (sessionId : String) (st : DecState) (t : String),
      processLine sessionId st (mkResultLine t) =
        if st.accumulatedText = "" then
          .ok ({ st with accumulatedText := t },
            [AgentEvent.output sessionId t "text"])
        else .ok (st, [])) ∧
    process_stream "s" [some (mkAssistantLine ["Hello, "]),
        some (mkAssistantLine ["world"]), some (mkResultLine "done")] =
      .ok ({ accumulatedText := "Hello, world", claudeSessionId := none },
        [.output "s" "Hello, " "text", .output "s" "world" "text"]) ∧
    process_stream "s" [some (mkResultLine "done")] =
      .ok ({ accumulatedText := "done", claudeSessionId := none },
        [.output "s" "done" "text"]) :=
  ⟨processLine_assistant, processLine_result, rfl, rfl⟩

/-- C7: a line that fails to parse is silently skipped: processing it
changes neither the accumulated text, nor the captured continuation id,
nor the published events, does not abort the stream, and decoding
continues with the next line; a stream ending in such a line ends in the
same state it had before it. -/
theorem unparseable_line_skipped :
    (∀ (sessionId : String) (st : DecState) (evs : List AgentEvent)
        (rest : List (Option Json)),
      processLines sessionId st evs (none :: rest) =
        processLines sessionId st evs rest) ∧
    (∀ (sessionId : String) (st : DecState) (evs : List AgentEvent),
      processLines sessionId st evs [none] = .ok (st, evs)) :=
  ⟨fun _ _ _ _ => rfl, fun _ _ _ => rfl⟩

/-- C6: a result event with is_error true makes process_stream fail
immediately with the entries of its errors array joined by "; "; at the
task boundary that reason is persisted as an error message for the
session and the session's terminal status is Failed. -/
theorem error_result_fails_session :
    (∀ (sessionId : String) (st : DecState) (errs : List String),
      processLine sessionId st (mkErrorResultLine errs) =
        .error (String.intercalate "; " errs)) ∧
    (∀ (sessionId : String) (pre rest : List (Option Json))
        (errs : List String) (st1 : DecState) (evs1 : List AgentEvent),
      process_stream sessionId pre = .ok (st1, evs1) →
      process_stream sessionId (pre ++ some (mkErrorResultLine errs) :: rest) =
        .error (String.intercalate "; " errs)) ∧
    (∀ (st : ManagerState) (sessionId msg : String),
      (taskFinalize st sessionId (.error msg)).db.messages =
        st.db.messages ++
          [{ sessionId := sessionId, role := "error", content := msg }] ∧
      ∀ sess, get_agent_session st.db sessionId = some sess →
        get_agent_session (taskFinalize st sessionId (.error msg)).db
            sessionId =
          some { sess with status := .failed }) := by
  refine ⟨processLine_errorResult, ?_, ?_⟩
  · intro sessionId pre rest errs st1 evs1 h
    unfold process_stream at h ⊢
    rw [processLines_append, h]
    simp [processLines, processLine_errorResult]
  · intro st sessionId msg
    refine ⟨rfl, ?_⟩
    intro sess h
    have h2 : get_agent_session (taskFinalize st sessionId (.error msg)).db
        sessionId =
        (get_agent_session st.db sessionId).map
          (fun s => { s with status := .failed }) := by
      show get_agent_session (update_agent_session_status
        (add_agent_message st.db sessionId "error" msg) sessionId .failed)
          sessionId = _
      rw [get_update_status, get_add_agent_message]
    rw [h2, h]
    rfl

/-- Concrete instance of the hypotheses of `error_result_fails_session`:
an error result after one assistant block fails the stream with the joined
text, and finalizing with that error marks the sample running session
Failed. -/
theorem error_result_fails_session_witness :
    process_stream "s1" ([some (mkAssistantLine ["x"])] ++
        some (mkErrorResultLine ["bad thing", "worse thing"]) :: []) =
      .error "bad thing; worse thing" ∧
    get_agent_session (taskFinalize
        { db := { sessions := [sampleSession .running none], messages := [] },
          cancelSenders := ["s1"], tasks := [] }
        "s1" (.error "bad thing; worse thing")).db "s1" =
      some { sampleSession .running none with status := .failed } :=
  ⟨error_result_fails_session.2.1 "s1" [some (mkAssistantLine ["x"])] []
      ["bad thing", "worse thing"]
      { accumulatedText := "x", claudeSessionId := none }
      [.output "s1" "x" "text"] (by rfl),
    (error_result_fails_session.2.2 _ "s1" "bad thing; worse thing").2
      (sampleSession .running none) (by rfl)⟩

/-! ## Claims about manager operations -/

/-- C8: `send_message` on a session with no recorded continuation id
returns the error before spawning any task and before any write: the
returned state is the unchanged input state, so the session's status, the
message log, the handle map and the task list are all untouched. -/
theorem resume_without_continuation_id_fails (st : ManagerState)
    (sessionId content : String) (sess : AgentSession)
    (hget : get_agent_session st.db sessionId = some sess)
    (hcsid : sess.claudeSessionId = none) :
    send_message st sessionId content =
      (st, .error "Session has no claude_session_id") := by
  simp [send_message, hget, hcsid]

/-- Concrete instance of `resume_without_continuation_id_fails`: the
manager holding one completed session without a continuation id rejects a
follow-up message and is left exactly as it was. -/
theorem resume_without_continuation_id_fails_witness :
    send_message noCsidState "s1" "hello" =
      (noCsidState, .error "Session has no claude_session_id") :=
  resume_without_continuation_id_fails noCsidState "s1" "hello"
    (sampleSession .completed none) (by rfl) (by rfl)

/-- C9: `cancel_session` returns true and removes the stored cancellation
handle exactly when a live handle exists for the id; with no handle it
returns false with no error and no side effect at all — in every case the
database (sessions and messages) and the task list are untouched. -/
theorem cancel_session_removes_iff_live (st : ManagerState) (id : String) :
    ((cancel_session st id).1 = true ↔ st.cancelSenders.contains id = true) ∧
    (cancel_session st id).2.db = st.db ∧
    (cancel_session st id).2.tasks = st.tasks ∧
    (st.cancelSenders.contains id = false → cancel_session st id = (false, st)) ∧
    (st.cancelSenders.contains id = true →
      cancel_session st id =
        (true, { st with cancelSenders := st.cancelSenders.erase id })) := by
  by_cases h : id ∈ st.cancelSenders
  · simp [cancel_session, h]
  · simp [cancel_session, h]

/-- Concrete instance of `cancel_session_removes_iff_live`: with one live
handle for `s1`, cancelling `s1` succeeds and removes it, and cancelling
the unknown id `zz` reports false and changes nothing. -/
theorem cancel_session_removes_iff_live_witness :
    cancel_session oneHandleState "s1" =
      (true, { oneHandleState with cancelSenders := [] }) ∧
    cancel_session oneHandleState "zz" = (false, oneHandleState) := by
  constructor
  · exact (cancel_session_removes_iff_live oneHandleState "s1").2.2.2.2
      (by rfl)
  · exact (cancel_session_removes_iff_live oneHandleState "zz").2.2.2.1
      (by rfl)

/-- C2 counterexample: a start request naming the directory
`/no/such/dir`, which exists on no filesystem view (here the empty one),
is not rejected synchronously: `start_session` returns the created
session to the caller and spawns a session task; the
working-directory error exists only inside `resolve_working_dir`, which
`start_session` never consults. -/
theorem start_missing_dir_not_rejected_synchronously :
    resolve_working_dir [] (some "/no/such/dir") "/tmp/fresh" =
      .error "Working directory does not exist: /no/such/dir" ∧
    (start_session 4 "m" initialState "sX" "do a thing"
        { workingDirectory := some "/no/such/dir",
          dangerouslySkipPermissions := false }).2 =
      .ok { id := "sX", prompt := "do a thing", status := .running,
            model := "m", claudeSessionId := none,
            workingDirectory := some "/no/such/dir",
            dangerouslySkipPermissions := false } ∧
    (start_session 4 "m" initialState "sX" "do a thing"
        { workingDirectory := some "/no/such/dir",
          dangerouslySkipPermissions := false }).1.tasks =
      [{ sessionId := "sX", kind := .fresh }] :=
  ⟨rfl, rfl, rfl⟩

/-- C2 amended: working-directory validation is not synchronous;
`start_session` spawns its task whenever admission passes, whatever the
directory preference, and the missing-directory error arises inside the
spawned task body before any subprocess interaction (the task's result
does not depend on the stream outcome), on the fresh and on the resume
path alike; finalizing the task with that error marks the session Failed
and persists the reason as an error message. -/
theorem working_dir_validated_inside_task (fs : List String)
    (freshTmp dir prompt sessionId csid : String) (db : DbState)
    (streamResult : Except String (String × Option String))
    (exitSuccess : Bool) (hdir : fs.contains dir = false) :
    run_claude_session fs freshTmp prompt sessionId (some dir) db
        streamResult exitSuccess =
      (add_agent_message db sessionId "user" prompt,
        .error ("Working directory does not exist: " ++ dir)) ∧
    resume_claude_session fs freshTmp csid prompt sessionId (some dir) db
        streamResult exitSuccess =
      (db, .error ("Working directory does not exist: " ++ dir)) ∧
    (∀ (maxC : Nat) (model : String) (st : ManagerState)
        (newId : String) (opts : SessionOptions),
      runningCount st.db < maxC →
      (start_session maxC model st newId prompt opts).1.tasks =
        st.tasks ++ [{ sessionId := newId, kind := .fresh }] ∧
      (start_session maxC model st newId prompt opts).2 =
        .ok (create_agent_session st.db newId prompt model
          opts.workingDirectory opts.dangerouslySkipPermissions).2) ∧
    (∀ (mgr : ManagerState) (sess : AgentSession),
      get_agent_session mgr.db sessionId = some sess →
      get_agent_session (taskFinalize mgr sessionId
          (.error ("Working directory does not exist: " ++ dir))).db
          sessionId =
        some { sess with status := .failed }) := by
  have hmem : ¬ dir ∈ fs := by simpa using hdir
  refine ⟨?_, ?_, ?_, ?_⟩
  · simp [run_claude_session, resolve_working_dir, hmem]
  · simp [resume_claude_session, resolve_working_dir, hmem]
  · intro maxC model st newId opts hadm
    have h2 : ¬ maxC ≤ (list_agent_sessions st.db (some "running")).length :=
      Nat.not_le.mpr hadm
    constructor
    · simp [start_session, h2, create_agent_session]
    · simp [start_session, h2, create_agent_session]
  · intro mgr sess hget
    have h2 : get_agent_session (taskFinalize mgr sessionId
        (.error ("Working directory does not exist: " ++ dir))).db
        sessionId =
        (get_agent_session mgr.db sessionId).map
          (fun s => { s with status := .failed }) := by
      show get_agent_session (update_agent_session_status
        (add_agent_message mgr.db sessionId "error"
          ("Working directory does not exist: " ++ dir))
        sessionId .failed) sessionId = _
      rw [get_update_status, get_add_agent_message]
    rw [h2, hget]
    rfl

/-- Concrete instance of `working_dir_validated_inside_task`: with an
empty filesystem view, the fresh task body for a request naming
`/missing` fails with the directory error after storing only the user
message. -/
theorem working_dir_validated_inside_task_witness :
    run_claude_session [] "/tmp/f" "go" "sY" (some "/missing")
        { sessions := [], messages := [] } (.ok ("ignored", some "cX"))
        true =
      ({ sessions := [],
         messages := [{ sessionId := "sY", role := "user", content := "go" }] },
        .error "Working directory does not exist: /missing") :=
  (working_dir_validated_inside_task [] "/tmp/f" "/missing" "go" "sY" "c0"
    { sessions := [], messages := [] } (.ok ("ignored", some "cX")) true
    (by rfl)).1

/-- C5 counterexample: a resumed run that observed continuation id
`new-c` (carried by a system/init event, as the decoder records) finishes
normally without persisting it: the owning session's stored continuation
id is still `old-c` when the run finalizes. -/
theorem resume_discards_observed_continuation_id :
    process_stream "s1" [some (mkInitLine "new-c"),
        some (mkResultLine "hi")] =
      .ok ({ accumulatedText := "hi", claudeSessionId := some "new-c" },
        [.output "s1" "hi" "text"]) ∧
    (resume_claude_session [] "/tmp/t" "old-c" "go on" "s1" none oldCsidDb
        (.ok ("hi", some "new-c")) true).2 = .ok () ∧
    get_agent_session (resume_claude_session [] "/tmp/t" "old-c" "go on"
        "s1" none oldCsidDb (.ok ("hi", some "new-c")) true).1 "s1" =
      some (sampleSession .completed (some "old-c")) :=
  ⟨rfl, rfl, rfl⟩

/-- C5 amended: only the fresh-start path persists the observed
continuation id: when the stream of a `run_claude_session` run reports a
continuation id, the owning session's stored id is updated to it before
the run finalizes, while a `resume_claude_session` run leaves the owning
session row entirely unchanged (the observed id is discarded). -/
theorem fresh_run_persists_continuation_id (fs : List String)
    (freshTmp prompt sessionId csid newCsid text cwd : String)
    (workingDirectory : Option String) (db : DbState) (exitSuccess : Bool)
    (hres : resolve_working_dir fs workingDirectory freshTmp = .ok cwd)
    (sess : AgentSession)
    (hget : get_agent_session db sessionId = some sess) :
    get_agent_session (run_claude_session fs freshTmp prompt sessionId
        workingDirectory db (.ok (text, some newCsid)) exitSuccess).1
        sessionId =
      some { sess with claudeSessionId := some newCsid } ∧
    get_agent_session (resume_claude_session fs freshTmp csid prompt
        sessionId workingDirectory db (.ok (text, some newCsid))
        exitSuccess).1 sessionId =
      some sess := by
  constructor
  · by_cases ht : text = "" <;>
      simp [run_claude_session, hres, ht, get_add_agent_message,
        get_set_csid, hget]
  · by_cases ht : text = "" <;>
      simp [resume_claude_session, hres, ht, get_add_agent_message, hget]

/-- Concrete instance of `fresh_run_persists_continuation_id`: a fresh run
over the single-session database persists the observed id `c9`. -/
theorem fresh_run_persists_continuation_id_witness :
    get_agent_session (run_claude_session [] "/tmp/f" "p" "s1" none
        { sessions := [sampleSession .running none], messages := [] }
        (.ok ("", some "c9")) true).1 "s1" =
      some { sampleSession .running none with claudeSessionId := some "c9" } :=
  (fresh_run_persists_continuation_id [] "/tmp/f" "p" "s1" "c0" "c9" ""
    "/tmp/f" none
    { sessions := [sampleSession .running none], messages := [] } true
    (by rfl) (sampleSession .running none) (by rfl)).1

/-! ## Claims about the two-phase timeout -/

theorem applySessionTimeout_ne_startup (p : Nat × RunOutcome)
    (h : p.2 ≠ RunOutcome.startupTimeout) :
    applySessionTimeout p ≠ RunOutcome.startupTimeout := by
  unfold applySessionTimeout
  split
  · simp
  · exact h

theorem streamRunAux_not_first_no_startup (sessionId : String)
    (rest : List (Nat × Option Json)) :
    ∀ (t : Nat) (st : DecState) (eofDelay : Nat),
      (streamRunAux sessionId t false st rest eofDelay).2 ≠
        RunOutcome.startupTimeout := by
  induction rest with
  | nil =>
    intro t st eof
    simp [streamRunAux]
  | cons p rest ih =>
    intro t st eof
    obtain ⟨d, line⟩ := p
    match line with
    | none => simpa [streamRunAux] using ih (t + d) st eof
    | some j =>
      cases h : processLine sessionId st j with
      | error e => simp [streamRunAux, h]
      | ok q =>
        obtain ⟨st1, evs1⟩ := q
        simpa [streamRunAux, h] using ih (t + d) st1 eof

theorem streamRunAux_startup_mid (sessionId : String)
    (junk : List (Nat × Option Json)) :
    ∀ (t : Nat) (st : DecState) (d : Nat) (x : Option Json)
      (rest : List (Nat × Option Json)) (eofDelay : Nat),
      (∀ e ∈ junk, e.2 = none ∧ e.1 ≤ startupTimeoutSecs) →
      startupTimeoutSecs < d →
      streamRunAux sessionId t true st (junk ++ (d, x) :: rest) eofDelay =
        (t + delaySum junk + startupTimeoutSecs,
          RunOutcome.startupTimeout) := by
  induction junk with
  | nil =>
    intro t st d x rest eof hjunk hd
    simp [streamRunAux, hd, delaySum]
  | cons p junk ih =>
    intro t st d x rest eof hjunk hd
    obtain ⟨d0, l0⟩ := p
    obtain ⟨hl0, hd0⟩ := hjunk (d0, l0) (by simp)
    have hnot : ¬ startupTimeoutSecs < d0 := Nat.not_lt.mpr hd0
    simp only at hl0
    subst hl0
    have hstep :
        streamRunAux sessionId t true st
            (((d0, none) :: junk) ++ (d, x) :: rest) eof =
          streamRunAux sessionId (t + d0) true st (junk ++ (d, x) :: rest)
            eof := by
      simp [streamRunAux, hnot]
    rw [hstep, ih (t + d0) st d x rest eof
      (fun e he => hjunk e (List.mem_cons_of_mem _ he)) hd]
    simp only [Prod.mk.injEq, and_true]
    simp only [delaySum, List.map_cons, List.sum_cons]
    omega

theorem streamRunAux_startup_eof (sessionId : String)
    (junk : List (Nat × Option Json)) :
    ∀ (t : Nat) (st : DecState) (eofDelay : Nat),
      (∀ e ∈ junk, e.2 = none ∧ e.1 ≤ startupTimeoutSecs) →
      startupTimeoutSecs < eofDelay →
      streamRunAux sessionId t true st junk eofDelay =
        (t + delaySum junk + startupTimeoutSecs,
          RunOutcome.startupTimeout) := by
  induction junk with
  | nil =>
    intro t st eof hjunk hd
    simp [streamRunAux, hd, delaySum]
  | cons p junk ih =>
    intro t st eof hjunk hd
    obtain ⟨d0, l0⟩ := p
    obtain ⟨hl0, hd0⟩ := hjunk (d0, l0) (by simp)
    have hnot : ¬ startupTimeoutSecs < d0 := Nat.not_lt.mpr hd0
    simp only at hl0
    subst hl0
    have hstep :
        streamRunAux sessionId t true st ((d0, none) :: junk) eof =
          streamRunAux sessionId (t + d0) true st junk eof := by
      simp [streamRunAux, hnot]
    rw [hstep, ih (t + d0) st eof
      (fun e he => hjunk e (List.mem_cons_of_mem _ he)) hd]
    simp only [Prod.mk.injEq, and_true]
    simp only [delaySum, List.map_cons, List.sum_cons]
    omega

/-- C4: when the (re-armed) 30-second startup timer actually elapses
before the first parseable event — every earlier read was an unparseable
line arriving within its window, and the timer's deadline precedes the
outer 300-second session deadline — the run fails with the distinct
startup-timeout reason, whether the overdue read is a line or the end of
the stream; and once a first parseable event has arrived within its
startup window, the startup-timeout reason is impossible, so a later
expiry of the outer deadline reports the session-timeout reason. -/
theorem startup_timeout_distinct_from_session_timeout :
    (∀ (sessionId : String) (junk : List (Nat × Option Json)) (d : Nat)
        (x : Option Json) (rest : List (Nat × Option Json)) (eofDelay : Nat),
      (∀ e ∈ junk, e.2 = none ∧ e.1 ≤ startupTimeoutSecs) →
      startupTimeoutSecs < d →
      delaySum junk + startupTimeoutSecs ≤ sessionTimeoutSecs →
      run_with_timeout sessionId (junk ++ (d, x) :: rest) eofDelay =
        RunOutcome.startupTimeout) ∧
    (∀ (sessionId : String) (junk : List (Nat × Option Json))
        (eofDelay : Nat),
      (∀ e ∈ junk, e.2 = none ∧ e.1 ≤ startupTimeoutSecs) →
      startupTimeoutSecs < eofDelay →
      delaySum junk + startupTimeoutSecs ≤ sessionTimeoutSecs →
      run_with_timeout sessionId junk eofDelay =
        RunOutcome.startupTimeout) ∧
    (∀ (sessionId : String) (d : Nat) (j : Json)
        (rest : List (Nat × Option Json)) (eofDelay : Nat),
      d ≤ startupTimeoutSecs →
      run_with_timeout sessionId ((d, some j) :: rest) eofDelay ≠
        RunOutcome.startupTimeout) ∧
    (∀ (sessionId : String) (lines : List (Nat × Option Json))
        (eofDelay : Nat),
      sessionTimeoutSecs <
        (streamRunAux sessionId 0 true
          { accumulatedText := "", claudeSessionId := none } lines
          eofDelay).1 →
      run_with_timeout sessionId lines eofDelay =
        RunOutcome.sessionTimeout) := by
  refine ⟨?_, ?_, ?_, ?_⟩
  · intro sid junk d x rest eof hjunk hd hbound
    unfold run_with_timeout
    rw [streamRunAux_startup_mid sid junk 0
      { accumulatedText := "", claudeSessionId := none } d x rest eof
      hjunk hd]
    unfold applySessionTimeout
    exact if_neg (by omega)
  · intro sid junk eof hjunk hd hbound
    unfold run_with_timeout
    rw [streamRunAux_startup_eof sid junk 0
      { accumulatedText := "", claudeSessionId := none } eof hjunk hd]
    unfold applySessionTimeout
    exact if_neg (by omega)
  · intro sid d j rest eof hd
    have hnot : ¬ startupTimeoutSecs < d := Nat.not_lt.mpr hd
    unfold run_with_timeout
    cases h : processLine sid
        { accumulatedText := "", claudeSessionId := none } j with
    | error e =>
      have hstep : streamRunAux sid 0 true
          { accumulatedText := "", claudeSessionId := none }
          ((d, some j) :: rest) eof = (0 + d, .remoteError e) := by
        simp [streamRunAux, hnot, h]
      rw [hstep]
      exact applySessionTimeout_ne_startup _ (by simp)
    | ok q =>
      obtain ⟨st1, evs1⟩ := q
      have hstep : streamRunAux sid 0 true
          { accumulatedText := "", claudeSessionId := none }
          ((d, some j) :: rest) eof =
          streamRunAux sid (0 + d) false st1 rest eof := by
        simp [streamRunAux, hnot, h]
      rw [hstep]
      exact applySessionTimeout_ne_startup _
        (streamRunAux_not_first_no_startup sid rest (0 + d) st1 eof)
  · intro sid lines eof h
    unfold run_with_timeout applySessionTimeout
    exact if_pos h

/-- Concrete instances of `startup_timeout_distinct_from_session_timeout`:
a run whose only lines are an unparseable one after 10 seconds and a next
read overdue by more than 30 seconds fails with the startup-timeout
reason; a silent stream whose end-of-file read takes 31 seconds does too;
and a run whose first line (a parseable result event) arrives after 5
seconds but whose next read takes 400 seconds fails with the
session-timeout reason. -/
theorem startup_timeout_distinct_witness :
    run_with_timeout "w" [(10, none), (31, none)] 0 =
      RunOutcome.startupTimeout ∧
    run_with_timeout "w" [] 31 = RunOutcome.startupTimeout ∧
    run_with_timeout "w" [(5, some (mkResultLine "hi")), (400, none)] 0 =
      RunOutcome.sessionTimeout :=
  ⟨startup_timeout_distinct_from_session_timeout.1 "w" [(10, none)] 31
      none [] 0
      (by rintro e he; simp at he; subst he; exact ⟨rfl, by decide⟩)
      (by decide) (by decide),
    startup_timeout_distinct_from_session_timeout.2.1 "w" [] 31
      (by simp) (by decide) (by decide),
    startup_timeout_distinct_from_session_timeout.2.2.2 "w"
      [(5, some (mkResultLine "hi")), (400, none)] 0 (by decide)⟩

/-! ## Claims about the concurrency ceiling and reachable statuses -/

theorem cancel_session_preserves_db (st : ManagerState) (id : String) :
    (cancel_session st id).2.db = st.db := by
  unfold cancel_session
  split <;> rfl

theorem length_filter_map_congr {α : Type} (f : α → α) (p : α → Bool)
    (l : List α) (h : ∀ x, p (f x) = p x) :
    ((l.map f).filter p).length = (l.filter p).length := by
  induction l with
  | nil => rfl
  | cons a l ih =>
    cases ha : p a with
    | true => simp [List.filter_cons, h, ha, ih]
    | false => simp [List.filter_cons, h, ha, ih]

theorem length_filter_map_le {α : Type} (f : α → α) (p : α → Bool)
    (l : List α) (h : ∀ x, p (f x) = true → p x = true) :
    ((l.map f).filter p).length ≤ (l.filter p).length := by
  induction l with
  | nil => exact Nat.le_refl _
  | cons a l ih =>
    cases hfa : p (f a) with
    | true =>
      have ha := h a hfa
      simp [List.filter_cons, hfa, ha]
      omega
    | false =>
      cases ha : p a with
      | true =>
        simp [List.filter_cons, hfa, ha]
        omega
      | false =>
        simpa [List.filter_cons, hfa, ha] using ih

theorem runningCount_append_running (db : DbState) (s : AgentSession)
    (hs : s.status = .running) :
    runningCount { db with sessions := db.sessions ++ [s] } =
      runningCount db + 1 := by
  simp [runningCount, list_agent_sessions, List.filter_append, hs,
    AgentStatus.asStr]

theorem runningCount_add_agent_message (db : DbState)
    (sid role content : String) :
    runningCount (add_agent_message db sid role content) =
      runningCount db := rfl

theorem runningCount_set_csid (db : DbState) (id csid : String) :
    runningCount (set_claude_session_id db id csid) = runningCount db := by
  unfold runningCount list_agent_sessions set_claude_session_id
  apply length_filter_map_congr
  intro x
  cases hid : x.id == id with
  | true => simp [hid]
  | false => simp [hid]

theorem runningCount_update_le (db : DbState) (id : String)
    (status : AgentStatus) (h : (status.asStr == "running") = false) :
    runningCount (update_agent_session_status db id status) ≤
      runningCount db := by
  unfold runningCount list_agent_sessions update_agent_session_status
  apply length_filter_map_le
  intro x hx
  cases hid : x.id == id with
  | true => simp [hid, h] at hx
  | false => simpa [hid] using hx

theorem runningCount_delete_le (db : DbState) (id : String) :
    runningCount (delete_agent_session db id) ≤ runningCount db := by
  unfold runningCount list_agent_sessions delete_agent_session
  exact ((List.filter_sublist _).filter _).length_le

/-- C1 counterexample: with concurrency ceiling `max_concurrent = 1`, the
state `c1State5` is reachable — start `s1`, record its continuation id,
let its task complete, start `s2`, then reopen `s1` with `send_message` —
and persists two sessions in `Running` status, exceeding the ceiling. -/
theorem running_count_exceeds_ceiling_via_send_message :
    Reach 1 "m" c1State5 ∧ runningCount c1State5.db = 2 := by
  constructor
  · show Relation.ReflTransGen (Step 1 "m") initialState c1State5
    have h1 : Step 1 "m" initialState c1State1 :=
      Step.core (CoreStep.start initialState "s1" "p1" defaultOpts)
    have h2 : Step 1 "m" c1State1 c1State2 :=
      Step.core (CoreStep.setCsid c1State1 "s1" "c1" (by decide))
    have h3 : Step 1 "m" c1State2 c1State3 :=
      Step.core (CoreStep.finish c1State2
        { sessionId := "s1", kind := .fresh } (.ok ()) (by decide))
    have h4 : Step 1 "m" c1State3 c1State4 :=
      Step.core (CoreStep.start c1State3 "s2" "p2" defaultOpts)
    have h5 : Step 1 "m" c1State4 c1State5 :=
      Step.send c1State4 "s1" "again"
    exact Relation.ReflTransGen.head h1 (Relation.ReflTransGen.head h2
      (Relation.ReflTransGen.head h3 (Relation.ReflTransGen.head h4
        (Relation.ReflTransGen.single h5))))
  · decide

/-- C1 amended: `start_session` rejects admission when the persisted count
of `Running` sessions has reached the ceiling (returning the error with
the state unchanged), and every manager transition other than
`send_message` preserves the bound `runningCount ≤ max_concurrent`; the
`send_message` resume path sets the session `Running` without an
admission check, so it does not preserve the bound. -/
theorem start_session_admission_bounds_running :
    (∀ (maxC : Nat) (model : String) (st : ManagerState)
        (newId prompt : String) (opts : SessionOptions),
      maxC ≤ runningCount st.db →
      start_session maxC model st newId prompt opts =
        (st, .error "Maximum concurrent sessions reached")) ∧
    (∀ (maxC : Nat) (model : String) (st st' : ManagerState),
      CoreStep maxC model st st' →
      runningCount st.db ≤ maxC → runningCount st'.db ≤ maxC) := by
  constructor
  · intro maxC model st newId prompt opts h
    unfold start_session
    exact if_pos h
  · intro maxC model st st' hstep hb
    cases hstep with
    | start newId prompt opts =>
      by_cases hadm :
          maxC ≤ (list_agent_sessions st.db (some "running")).length
      · simp only [start_session]
        rw [if_pos hadm]
        exact hb
      · simp only [start_session]
        rw [if_neg hadm]
        show runningCount
          (create_agent_session st.db newId prompt model
            opts.workingDirectory opts.dangerouslySkipPermissions).1 ≤ maxC
        unfold create_agent_session
        rw [runningCount_append_running st.db _ rfl]
        have hlt : runningCount st.db < maxC := Nat.lt_of_not_le hadm
        omega
    | cancel id =>
      show runningCount (cancel_session st id).2.db ≤ maxC
      rw [cancel_session_preserves_db]
      exact hb
    | setCsid sid csid hmem =>
      show runningCount (set_claude_session_id st.db sid csid) ≤ maxC
      rw [runningCount_set_csid]
      exact hb
    | taskMsg t role content hmem =>
      exact hb
    | finish t result hmem =>
      cases result with
      | ok u =>
        show runningCount
          (update_agent_session_status st.db t.sessionId .completed) ≤ maxC
        exact Nat.le_trans (runningCount_update_le _ _ _ (by decide)) hb
      | error e =>
        show runningCount
          (update_agent_session_status
            (add_agent_message st.db t.sessionId "error" e)
            t.sessionId .failed) ≤ maxC
        exact Nat.le_trans (runningCount_update_le _ _ _ (by decide)) hb
    | delete id =>
      show runningCount (delete_agent_session st.db id) ≤ maxC
      exact Nat.le_trans (runningCount_delete_le _ _) hb

/-- Concrete instance of `start_session_admission_bounds_running`: in the
reachable state `c1State1` (one running session, ceiling 1), a second
start is rejected with the state unchanged. -/
theorem start_session_admission_bounds_running_witness :
    start_session 1 "m" c1State1 "s9" "p9" defaultOpts =
      (c1State1, .error "Maximum concurrent sessions reached") :=
  start_session_admission_bounds_running.1 1 "m" c1State1 "s9" "p9"
    defaultOpts (by decide)

theorem noPaused_update_status (db : DbState) (id : String)
    (status : AgentStatus) (hstatus : status ≠ AgentStatus.paused)
    (h : ∀ sess ∈ db.sessions, sess.status ≠ AgentStatus.paused) :
    ∀ sess ∈ (update_agent_session_status db id status).sessions,
      sess.status ≠ AgentStatus.paused := by
  intro sess hmem
  unfold update_agent_session_status at hmem
  obtain ⟨x, hx, rfl⟩ := List.mem_map.mp hmem
  cases hid : x.id == id with
  | true => simpa [hid] using hstatus
  | false => simpa [hid] using h x hx

theorem noPaused_set_csid (db : DbState) (id csid : String)
    (h : ∀ sess ∈ db.sessions, sess.status ≠ AgentStatus.paused) :
    ∀ sess ∈ (set_claude_session_id db id csid).sessions,
      sess.status ≠ AgentStatus.paused := by
  intro sess hmem
  unfold set_claude_session_id at hmem
  obtain ⟨x, hx, rfl⟩ := List.mem_map.mp hmem
  cases hid : x.id == id with
  | true => simpa [hid] using h x hx
  | false => simpa [hid] using h x hx

/-- C10: no reachable manager state persists a session whose status is
`Paused`: sessions are created `Running`, reopened `Running` by
`send_message`, and finished `Completed` or `Failed`; no operation ever
writes `Paused`, so it is unreachable in persisted state. -/
theorem paused_status_unreachable (maxC : Nat) (model : String)
    (st : ManagerState) (h : Reach maxC model st) :
    ∀ sess ∈ st.db.sessions, sess.status ≠ AgentStatus.paused := by
  unfold Reach at h
  induction h with
  | refl => intro sess hmem; cases hmem
  | @tail b c hsteps hstep ih =>
    cases hstep with
    | core hcore =>
      cases hcore with
      | start newId prompt opts =>
        by_cases hadm :
            maxC ≤ (list_agent_sessions b.db (some "running")).length
        · simp only [start_session]
          rw [if_pos hadm]
          exact ih
        · simp only [start_session]
          rw [if_neg hadm]
          intro sess hmem
          rcases List.mem_append.mp hmem with hmem1 | hmem1
          · exact ih sess hmem1
          · rcases List.mem_singleton.mp hmem1 with rfl
            exact (by decide : AgentStatus.running ≠ AgentStatus.paused)
      | cancel id =>
        intro sess hmem
        rw [cancel_session_preserves_db] at hmem
        exact ih sess hmem
      | setCsid sid csid hmem1 =>
        exact noPaused_set_csid b.db sid csid ih
      | taskMsg t role content hmem1 =>
        exact ih
      | finish t result hmem1 =>
        cases result with
        | ok u =>
          exact noPaused_update_status b.db t.sessionId .completed
            (by decide) ih
        | error e =>
          exact noPaused_update_status _ t.sessionId .failed (by decide) ih
      | delete id =>
        intro sess hmem
        exact ih sess (List.mem_filter.mp hmem).1
    | send sid content =>
      cases hg : get_agent_session b.db sid with
      | none =>
        simp only [send_message, hg]
        exact ih
      | some sess0 =>
        cases hc : sess0.claudeSessionId with
        | none =>
          simp only [send_message, hg, hc]
          exact ih
        | some csid =>
          simp only [send_message, hg, hc]
          exact noPaused_update_status _ sid .running (by decide) ih

/-- Concrete instance of `paused_status_unreachable`: the session row
created by a first admitted start in the reachable state `c1State1` is
not `Paused`. -/
theorem paused_status_unreachable_witness :
    { id := "s1", prompt := "p1", status := AgentStatus.running,
      model := "m", claudeSessionId := none, workingDirectory := none,
      dangerouslySkipPermissions := false : AgentSession }.status ≠
      AgentStatus.paused :=
  paused_status_unreachable 1 "m" c1State1
    (Relation.ReflTransGen.single
      (Step.core (CoreStep.start initialState "s1" "p1" defaultOpts)))
    { id := "s1", prompt := "p1", status := AgentStatus.running,
      model := "m", claudeSessionId := none, workingDirectory := none,
      dangerouslySkipPermissions := false }
    (by decide)

end Porter
